import Mathlib

/-!
Verification of the station spatial-bookkeeping core (station.cpp) of the
OpenTTD-patches repository: a shallow embedding of the StationRect tracker,
the catchment recomputation (Station::RecomputeCatchment and helpers), and
the link-graph teardown step of the Station destructor, together with
theorems settling the specified properties.

Conventions of the embedding:
- tile coordinates are unpacked pairs (x, y) of naturals; the C++ TileIndex
  packing y * MapSizeX + x is irrelevant to the verified properties;
- C++ int arithmetic on rect bounds is carried out on naturals: every value
  that flows into the modelled expressions is non-negative, and the places
  where the C++ code computes max(0, a - b) coincide with truncated
  subtraction on naturals;
- assert is modelled as an explicit outcome so that a path on
  which the C++ code aborts is distinguishable from a structured failure.
-/

namespace StationCore

/-! ### Configuration (the _settings_game.station fields read by this core) -/

/-- The station settings consumed by this core, read-only during a call. -/
structure StationSettings where
  station_spread : ℕ
  modified_catchment : Bool
  catchment_increase : ℕ
  serve_neutral_industries : Bool
deriving DecidableEq

/-! ### StationRect -/

/-- StationRect: four tile coordinates (left, top, right, bottom). -/
structure StationRect where
  left : ℕ
  top : ℕ
  right : ℕ
  bottom : ℕ
deriving DecidableEq

/-- StationRect::MakeEmpty: all four bounds zeroed. -/
def StationRect.MakeEmpty : StationRect := ⟨0, 0, 0, 0⟩

/-- StationRect::PtInExtendedRect. The C++ comparison left - distance <= x is
int arithmetic; on naturals with x >= 0 the truncated subtraction gives the
same truth value. -/
def StationRect.PtInExtendedRect (r : StationRect) (x y : ℕ) (distance : ℕ) : Bool :=
  r.left - distance ≤ x && x ≤ r.right + distance &&
    r.top - distance ≤ y && y ≤ r.bottom + distance

/-- StationRect::IsEmpty: left == 0 is the empty sentinel. -/
def StationRect.IsEmpty (r : StationRect) : Bool :=
  r.left == 0 || r.left > r.right || r.top > r.bottom

/-- StationRectMode: the three-way add mode. -/
inductive StationRectMode
  | ADD_TEST
  | ADD_TRY
  | ADD_FORCE
deriving DecidableEq

/-- Outcome of BeforeAddTile / BeforeAddRect. A default CommandCost is a
success; return_cmd_error(STR_ERROR_STATION_TOO_SPREAD_OUT) is the structured
spread failure; a failed assert is an abort, kept distinct from both. -/
inductive AddOutcome
  | success
  | spreadTooLarge
  | assertFailed
deriving DecidableEq

/-- StationRect::BeforeAddTile. Returns the outcome together with the rect
as left behind by the call (unchanged unless the call commits a change).
The branch ordering and conditions mirror the source; the line
assert(mode != ADD_TRY) on the oversize path makes the ADD_TRY case of that
path an assert failure rather than a returned error. -/
def StationRect.BeforeAddTile (r : StationRect) (x y : ℕ) (mode : StationRectMode)
    (s : StationSettings) : AddOutcome × StationRect :=
  if r.IsEmpty then
    if mode ≠ .ADD_TEST then (.success, ⟨x, y, x, y⟩) else (.success, r)
  else if ¬ r.PtInExtendedRect x y 0 then
    let new_rect : StationRect :=
      ⟨min x r.left, min y r.top, max x r.right, max y r.bottom⟩
    let w := new_rect.right - new_rect.left + 1
    let h := new_rect.bottom - new_rect.top + 1
    if mode ≠ .ADD_FORCE ∧ (w > s.station_spread ∨ h > s.station_spread) then
      if mode = .ADD_TRY then (.assertFailed, r) else (.spreadTooLarge, r)
    else if mode ≠ .ADD_TEST then (.success, new_rect) else (.success, r)
  else
    (.success, r)

/-- StationRect::BeforeAddRect for a block of size w x h anchored at (x, y).
When the guard mode == ADD_FORCE || (w <= spread && h <= spread) fails, the
source returns a default CommandCost, which is a success, without touching
the rect. -/
def StationRect.BeforeAddRect (r : StationRect) (x y w h : ℕ) (mode : StationRectMode)
    (s : StationSettings) : AddOutcome × StationRect :=
  if mode = .ADD_FORCE ∨ (w ≤ s.station_spread ∧ h ≤ s.station_spread) then
    match r.BeforeAddTile x y mode s with
    | (.success, r1) => r1.BeforeAddTile (x + w - 1) (y + h - 1) mode s
    | other => other
  else
    (.success, r)

/-! ### World model for catchment recomputation -/

abbrev TownID := ℕ
abbrev IndustryID := ℕ
abbrev StationID := ℕ
abbrev CargoID := ℕ
abbrev Tile := ℕ × ℕ

/-- StationType values relevant to GetStationType on a station tile. -/
inductive StationType
  | STATION_RAIL
  | STATION_AIRPORT
  | STATION_TRUCK
  | STATION_BUS
  | STATION_OILRIG
  | STATION_DOCK
  | STATION_BUOY
  | STATION_WAYPOINT
deriving DecidableEq

/-- Modelled from the spec: the CatchmentArea radius constants of
station_type.h are not among the provided sources. The spec only requires
type-specific radii with zero for buoy and waypoint types; the values below
are the documented defaults and no verified property depends on them beyond
CA_NONE being zero. -/
def CA_NONE : ℕ := 0

/-- Catchment radius for bus stops (see CA_NONE). -/
def CA_BUS : ℕ := 3

/-- Catchment radius for truck stops (see CA_NONE). -/
def CA_TRUCK : ℕ := 3

/-- Catchment radius for rail stations (see CA_NONE). -/
def CA_TRAIN : ℕ := 4

/-- Catchment radius for docks (see CA_NONE). -/
def CA_DOCK : ℕ := 5

/-- Flat radius used when modified catchment is disabled (see CA_NONE). -/
def CA_UNMODIFIED : ℕ := 4

/-- Classification of a world tile as read by this core: IsTileType with
MP_HOUSE / MP_INDUSTRY / MP_STATION plus the owner index, with the station
type of a station tile. Anything else is irrelevant here. -/
inductive TileKind
  | house (town : TownID)
  | industryTile (ind : IndustryID)
  | stationTile (st : StationID) (ty : StationType)
  | clear
deriving DecidableEq

/-- The tile map together with the map bounds MapMaxX / MapMaxY (largest
valid coordinates). -/
structure GameMap where
  mapMaxX : ℕ
  mapMaxY : ℕ
  tileAt : Tile → TileKind

/-- TileArea: an anchor tile with a width and height. -/
structure TileArea where
  x : ℕ
  y : ℕ
  w : ℕ
  h : ℕ
deriving DecidableEq

/-- The set of tiles covered by a TileArea (iteration order is irrelevant to
every verified property). -/
def TileArea.tiles (ta : TileArea) : Finset Tile :=
  Finset.Ico ta.x (ta.x + ta.w) ×ˢ Finset.Ico ta.y (ta.y + ta.h)

/-- The tiles of the TileArea spanned by two inclusive corners, as built by
TileArea ta(TileXY(left, top), TileXY(right, bottom)). -/
def rectTileSet (r : StationRect) : Finset Tile :=
  Finset.Icc r.left r.right ×ˢ Finset.Icc r.top r.bottom

/-- Modelled from the spec: TileArea(tile, 1, 1).Expand(r) of tilearea
(not among the provided sources) yields the axis-aligned square of side
2r+1 centred on the tile, clamped to the map bounds. -/
def tileSquare (m : GameMap) (t : Tile) (r : ℕ) : Finset Tile :=
  Finset.Icc (t.1 - r) (min m.mapMaxX (t.1 + r)) ×ˢ
    Finset.Icc (t.2 - r) (min m.mapMaxY (t.2 + r))

/-- Modelled from the spec: BitmapTileArea of bitmap_type.hpp (not among the
provided sources) is a bitmap over a bounded tile region; Initialize fixes
the region and clears the bits, SetTile sets one bit, Reset empties both.
The region is kept as the covered tile set, the bits as the set of set
tiles. -/
structure BitmapTileArea where
  area : Finset Tile
  bits : Finset Tile
deriving DecidableEq

/-- BitmapTileArea::Reset (see BitmapTileArea). -/
def BitmapTileArea.Reset : BitmapTileArea := ⟨∅, ∅⟩

/-- BitmapTileArea::Initialize (see BitmapTileArea). -/
def BitmapTileArea.Initialize (area : Finset Tile) : BitmapTileArea := ⟨area, ∅⟩

/-- Industry: the fields of an industry read or written by this core.
accepts_cargo models the fixed-size array of cargo slots, a slot holding
none standing for CT_INVALID. -/
structure Industry where
  location : TileArea
  accepts_cargo : List (Option CargoID)
  neutral_station : Option StationID
  stations_near : Finset StationID
deriving DecidableEq

/-- Station: the fields of a station read or written by the verified
operations. The facility fields model the pointer / INVALID_TILE tests of
GetCatchmentRadius; airport_catchment models airport.GetSpec()->catchment. -/
structure Station where
  rect : StationRect
  industry : Option IndustryID
  industries_near : Finset IndustryID
  catchment_tiles : BitmapTileArea
  station_tiles : ℕ
  bus_stops : Bool
  truck_stops : Bool
  train_station_tile : Bool
  ship_station_tile : Bool
  airport_tile : Bool
  airport_catchment : ℕ
deriving DecidableEq

/-- The world state touched by catchment recomputation: the tile map, the
reverse stations_near set of every town, every industry, and every station
record. -/
structure World where
  map : GameMap
  towns : TownID → Finset StationID
  industries : IndustryID → Industry
  stations : StationID → Station

/-- GetTileCatchmentRadius: per-tile radius from the station type of the
tile, the airport specification of the station and the global settings.
The unreachable default of the first switch needs no model since every
StationType is covered. -/
def GetTileCatchmentRadius (ty : StationType) (st : Station) (s : StationSettings) : ℕ :=
  let inc := s.catchment_increase
  if s.modified_catchment then
    match ty with
    | .STATION_RAIL => CA_TRAIN + inc
    | .STATION_OILRIG => CA_UNMODIFIED + inc
    | .STATION_AIRPORT => st.airport_catchment + inc
    | .STATION_TRUCK => CA_TRUCK + inc
    | .STATION_BUS => CA_BUS + inc
    | .STATION_DOCK => CA_DOCK + inc
    | .STATION_BUOY => CA_NONE
    | .STATION_WAYPOINT => CA_NONE
  else
    match ty with
    | .STATION_BUOY => CA_NONE
    | .STATION_WAYPOINT => CA_NONE
    | _ => CA_UNMODIFIED + inc

/-- Station::GetCatchmentRadius: the largest per-facility radius, with the
global increase added whenever the base radius is non-zero. -/
def Station.GetCatchmentRadius (st : Station) (s : StationSettings) : ℕ :=
  let ret : ℕ := CA_NONE
  let ret :=
    if s.modified_catchment then
      let ret := if st.bus_stops then max ret CA_BUS else ret
      let ret := if st.truck_stops then max ret CA_TRUCK else ret
      let ret := if st.train_station_tile then max ret CA_TRAIN else ret
      let ret := if st.ship_station_tile then max ret CA_DOCK else ret
      if st.airport_tile then max ret st.airport_catchment else ret
    else
      if st.bus_stops || st.truck_stops || st.train_station_tile ||
          st.ship_station_tile || st.airport_tile then CA_UNMODIFIED else ret
  if ret ≠ CA_NONE then ret + s.catchment_increase else ret

/-- Station::GetCatchmentRectUsingRadius: the bounding rect padded by the
radius and clamped to the map. The C++ max(left - radius, 0) on ints equals
truncated natural subtraction. -/
def Station.GetCatchmentRectUsingRadius (st : Station) (radius : ℕ) (m : GameMap) :
    StationRect :=
  ⟨st.rect.left - radius, st.rect.top - radius,
    min (st.rect.right + radius) m.mapMaxX, min (st.rect.bottom + radius) m.mapMaxY⟩

/-- Station::GetCatchmentRect, the header-side wrapper composing the station
radius with the padded clamped rect. -/
def Station.GetCatchmentRect (st : Station) (s : StationSettings) (m : GameMap) :
    StationRect :=
  st.GetCatchmentRectUsingRadius (st.GetCatchmentRadius s) m

/-- Test IsTileType(tile, MP_STATION) && GetStationIndex(tile) == sid. -/
def tileBelongsTo (m : GameMap) (sid : StationID) (t : Tile) : Prop :=
  match m.tileAt t with
  | .stationTile j _ => j = sid
  | _ => False

instance (m : GameMap) (sid : StationID) (t : Tile) : Decidable (tileBelongsTo m sid t) := by
  unfold tileBelongsTo
  cases m.tileAt t <;> infer_instance

/-- GetStationType of a tile; only meaningful on station tiles, matching the
precondition of GetTileCatchmentRadius. -/
def tileStationType (m : GameMap) (t : Tile) : StationType :=
  match m.tileAt t with
  | .stationTile _ ty => ty
  | _ => .STATION_RAIL

/-- The station tiles of station sid inside its bounding rect, the tiles the
loop of RecomputeCatchment does not skip. -/
def stationTilesIn (m : GameMap) (sid : StationID) (r : StationRect) : Finset Tile :=
  (rectTileSet r).filter (tileBelongsTo m sid)

/-- The catchment bits of the general case of RecomputeCatchment: the union
of the clamped squares around every station tile with a non-zero per-tile
radius. -/
def generalCatchmentBits (m : GameMap) (s : StationSettings) (st : Station)
    (sid : StationID) : Finset Tile :=
  (stationTilesIn m sid st.rect).biUnion (fun t =>
    let r := GetTileCatchmentRadius (tileStationType m t) st s
    if r = CA_NONE then ∅ else tileSquare m t r)

/-- Whether the industry accepts at least one cargo kind: the scan of
accepts_cargo for a slot different from CT_INVALID in
Station::AddIndustryToDeliver. -/
def acceptsAnyCargo (ind : Industry) : Bool :=
  ind.accepts_cargo.any (fun c => c.isSome)

/-- Station::AddIndustryToDeliver: idempotent insert guarded by the cargo
acceptance scan. -/
def Station.AddIndustryToDeliver (st : Station) (ind : Industry) (iid : IndustryID) :
    Station :=
  if iid ∈ st.industries_near then st
  else if acceptsAnyCargo ind then
    { st with industries_near := insert iid st.industries_near }
  else st

/-- The neutral-station skip of the catchment walk: the industry is handed
to the reverse index unless serving neutral industries is off and the
industry has a neutral station. -/
def industryAllowed (s : StationSettings) (ind : Industry) : Prop :=
  s.serve_neutral_industries = true ∨ ind.neutral_station = none

instance (s : StationSettings) (ind : Industry) : Decidable (industryAllowed s ind) := by
  unfold industryAllowed
  infer_instance

/-- A bit of the catchment bitmap lies on a house tile of town tid. -/
def coversHouseOf (m : GameMap) (bits : Finset Tile) (tid : TownID) : Prop :=
  ∃ t ∈ bits, m.tileAt t = .house tid

instance (m : GameMap) (bits : Finset Tile) (tid : TownID) :
    Decidable (coversHouseOf m bits tid) := by
  unfold coversHouseOf
  infer_instance

/-- A bit of the catchment bitmap lies on a tile of industry iid. -/
def coversIndustryTile (m : GameMap) (bits : Finset Tile) (iid : IndustryID) : Prop :=
  ∃ t ∈ bits, m.tileAt t = .industryTile iid

instance (m : GameMap) (bits : Finset Tile) (iid : IndustryID) :
    Decidable (coversIndustryTile m bits iid) := by
  unfold coversIndustryTile
  infer_instance

/-- The industries_near set produced by the catchment walk of the general
case: every industry owning a catchment bit, passing the neutral-station
skip, and accepted by Station::AddIndustryToDeliver. -/
def generalIndustriesNear (m : GameMap) (s : StationSettings)
    (inds : IndustryID → Industry) (bits : Finset Tile) : Finset IndustryID :=
  bits.biUnion (fun t =>
    match m.tileAt t with
    | .industryTile i =>
        if industryAllowed s (inds i) ∧ acceptsAnyCargo (inds i) then {i} else ∅
    | _ => ∅)

/-- Station::RemoveFromAllNearbyLists: erase the station from the reverse
stations_near set of every town and every industry. -/
def RemoveFromAllNearbyLists (w : World) (sid : StationID) : World :=
  { w with
    towns := fun t => (w.towns t).erase sid,
    industries := fun i =>
      { w.industries i with stations_near := (w.industries i).stations_near.erase sid } }

/-- The opening of RecomputeCatchment: this->industries_near.clear() and,
unless no_clear_nearby_lists holds, RemoveFromAllNearbyLists. -/
def worldAfterClear (w : World) (sid : StationID) (no_clear_nearby_lists : Bool) : World :=
  let w1 := if no_clear_nearby_lists then w else RemoveFromAllNearbyLists w sid
  { w1 with stations := fun j =>
      if j = sid then { w1.stations j with industries_near := ∅ } else w1.stations j }

/-- The empty-rect early return of RecomputeCatchment: the bitmap is reset
and nothing else of the station record is touched. -/
def recomputeEmptyBranch (w2 : World) (sid : StationID) : World :=
  { w2 with stations := fun j =>
      if j = sid then { w2.stations j with catchment_tiles := BitmapTileArea.Reset }
      else w2.stations j }

/-- The exclusive-industry special case of RecomputeCatchment: the bitmap
is the industry footprint restricted to tiles still owned by the industry,
the station and the industry become the sole near entries of each other
(erasing the industry from every previously recorded nearby station), and
station_tiles is recounted over the bounding rect. -/
def recomputeNeutralBranch (w2 : World) (sid : StationID)
    (iid : IndustryID) : World :=
  let ind := w2.industries iid
  let bits := ind.location.tiles.filter
    (fun t => w2.map.tileAt t = TileKind.industryTile iid)
  let stations3 : StationID → Station := fun j =>
    if j ∈ ind.stations_near then
      { w2.stations j with
          industries_near := (w2.stations j).industries_near.erase iid }
    else w2.stations j
  let industries3 : IndustryID → Industry := fun i =>
    if i = iid then { w2.industries i with stations_near := {sid} }
    else w2.industries i
  let stFinal : Station :=
    { stations3 sid with
        catchment_tiles := ⟨ind.location.tiles, bits⟩,
        industries_near := insert iid (stations3 sid).industries_near,
        station_tiles := (stationTilesIn w2.map sid (w2.stations sid).rect).card }
  { w2 with
      stations := fun j => if j = sid then stFinal else stations3 j,
      industries := industries3 }

/-- The general case of RecomputeCatchment: the bitmap is initialised over
the padded catchment rect and filled with the per-tile squares, then the
walk over the set bits updates the reverse indices and industries_near,
and station_tiles is recounted over the bounding rect. -/
def recomputeGeneralBranch (w2 : World) (s : StationSettings) (sid : StationID) : World :=
  let st2 := w2.stations sid
  let bits := generalCatchmentBits w2.map s st2 sid
  let stFinal : Station :=
    { st2 with
        catchment_tiles := ⟨rectTileSet (st2.GetCatchmentRect s w2.map), bits⟩,
        station_tiles := (stationTilesIn w2.map sid st2.rect).card,
        industries_near := generalIndustriesNear w2.map s w2.industries bits }
  { w2 with
      stations := fun j => if j = sid then stFinal else w2.stations j,
      towns := fun tid =>
        if coversHouseOf w2.map bits tid then insert sid (w2.towns tid)
        else w2.towns tid,
      industries := fun i =>
        if coversIndustryTile w2.map bits i ∧ industryAllowed s (w2.industries i) then
          { w2.industries i with
              stations_near := insert sid (w2.industries i).stations_near }
        else w2.industries i }

/-- Station::RecomputeCatchment as a world transformer for station sid.
The source mutates this->industries_near, the reverse indices, the bitmap
and station_tiles in a fixed order; the model commits the cleared
industries_near first and then builds the final sets, which the verified
properties compare. The C++ loop inserts into sets, so the resulting sets
are stated directly (duplicates and order are immaterial). -/
def RecomputeCatchment (s : StationSettings) (w : World) (sid : StationID)
    (no_clear_nearby_lists : Bool) : World :=
  let w2 := worldAfterClear w sid no_clear_nearby_lists
  if (w2.stations sid).rect.IsEmpty then recomputeEmptyBranch w2 sid
  else
    match s.serve_neutral_industries, (w2.stations sid).industry with
    | false, some iid => recomputeNeutralBranch w2 sid iid
    | _, _ => recomputeGeneralBranch w2 s sid

/-! ### Link-graph teardown step of the Station destructor

The destructor loop over cargo kinds is modelled for one cargo kind; the
kinds are independent. The LinkGraph container itself is not among the
provided sources, so the consumed contract is modelled from the spec:
a graph holds one node per participating station, node removal drops the
node and shrinks the size by one, and an emptied graph is unqueued from the
schedule and disposed. -/

abbrev NodeID := ℕ
abbrev LinkGraphID := ℕ

/-- A flow table entry of a station for one cargo kind, reduced to the pair
of its source station key and a via station holding a share. Modelled from
the spec: FlowStatMap is not among the provided sources; erase(id) drops
every entry keyed by source id, DeleteFlows(id) drops every share routed
via id. -/
abbrev FlowTable := Finset (StationID × StationID)

/-- FlowStatMap::erase applied to a source station (see FlowTable). -/
def flowsEraseSource (f : FlowTable) (src : StationID) : FlowTable :=
  f.filter (fun p => p.1 ≠ src)

/-- FlowStatMap::DeleteFlows applied to a via station (see FlowTable). -/
def flowsDeleteVia (f : FlowTable) (via : StationID) : FlowTable :=
  f.filter (fun p => p.2 ≠ via)

/-- A link graph: the station of every node, indexed by node id, together
with the liveness of every directed edge, the test
lg[from][to].LastUpdate() != INVALID_DATE. -/
structure LinkGraph where
  nodeStation : List StationID
  edgeLive : NodeID → NodeID → Bool

/-- The link-graph side of the world for one cargo kind: the graph pool,
the schedule queue, and per station its flow table, graph reference and
node id (goods[c].flows, goods[c].link_graph, goods[c].node). -/
structure LinkGraphWorld where
  graphs : LinkGraphID → Option LinkGraph
  queued : Finset LinkGraphID
  flows : StationID → FlowTable
  link_graph : StationID → Option LinkGraphID
  node : StationID → NodeID

/-- The link-graph block of the Station destructor for one cargo kind and
the dying station a: every node of the graph of a has its station flow
table scrubbed (erase of the plain entry always, DeleteFlows plus cargo
rerouting when the edge towards the node of a is live), the node of a is
removed, and the graph is unqueued and disposed when it became empty.
RerouteCargo redirects in-flight cargo packets and leaves the flow tables
alone, so it contributes nothing to this state. -/
def destructorUnlinkCargo (w : LinkGraphWorld) (a : StationID) : LinkGraphWorld :=
  match w.link_graph a with
  | none => w
  | some gid =>
    match w.graphs gid with
    | none => w
    | some lg =>
      let an := w.node a
      let flows1 : StationID → FlowTable := fun j =>
        if j ∈ lg.nodeStation then
          let f := flowsEraseSource (w.flows j) a
          if ∃ n : Fin lg.nodeStation.length,
              lg.nodeStation.get n = j ∧ lg.edgeLive n.val an = true then
            flowsDeleteVia f a
          else f
        else w.flows j
      let lg1 : LinkGraph := { lg with nodeStation := lg.nodeStation.eraseIdx an }
      if lg1.nodeStation.length = 0 then
        { w with
            graphs := fun g => if g = gid then none else w.graphs g,
            queued := w.queued.erase gid,
            flows := flows1 }
      else
        { w with
            graphs := fun g => if g = gid then some lg1 else w.graphs g,
            flows := flows1 }

/-! ### Concrete scenario states used by closed-form checks -/

/-- A settings value with a small spread limit. -/
def settingsSpread1 : StationSettings := ⟨1, false, 0, false⟩

/-- A non-empty one-tile rect anchored away from the x = 0 sentinel. -/
def rectOne : StationRect := ⟨1, 1, 1, 1⟩

/-- An industry record with no fields of interest. -/
def blankIndustry : Industry := ⟨⟨0, 0, 0, 0⟩, [], none, ∅⟩

/-- A station record with no facilities and an empty rect. -/
def blankStation : Station :=
  ⟨StationRect.MakeEmpty, none, ∅, BitmapTileArea.Reset, 0,
    false, false, false, false, false, 0⟩

/-- A five-by-five map holding one rail tile of station 1 at (1, 1) and one
tile of industry 7 at (2, 1). -/
def mapRailInd : GameMap :=
  { mapMaxX := 4, mapMaxY := 4,
    tileAt := fun t =>
      if t = (1, 1) then .stationTile 1 .STATION_RAIL
      else if t = (2, 1) then .industryTile 7
      else .clear }

/-- The world of mapRailInd: station 1 owns the rail tile, industry 7 has a
one-tile footprint at (2, 1) and accepts no cargo kind. -/
def worldNoCargoInd : World :=
  { map := mapRailInd,
    towns := fun _ => ∅,
    industries := fun i =>
      if i = 7 then
        { location := ⟨2, 1, 1, 1⟩, accepts_cargo := [none],
          neutral_station := none, stations_near := ∅ }
      else blankIndustry,
    stations := fun j =>
      if j = 1 then
        { blankStation with rect := rectOne, train_station_tile := true }
      else blankStation }

/-- Settings for worldNoCargoInd: flat radii, no bonus, neutral industries
served generally. -/
def settingsFlat : StationSettings := ⟨12, false, 0, true⟩

/-- A map for the neutral-industry case: a rail tile of station 1 at (1, 1)
and industry 7 owning (2, 1) while (3, 1) of its recorded footprint is
stale. -/
def mapNeutral : GameMap :=
  { mapMaxX := 4, mapMaxY := 4,
    tileAt := fun t =>
      if t = (1, 1) then .stationTile 1 .STATION_RAIL
      else if t = (2, 1) then .industryTile 7
      else .clear }

/-- The world of mapNeutral: station 1 is exclusively linked to industry 7
whose recorded footprint spans (2, 1) and (3, 1). -/
def worldNeutral : World :=
  { map := mapNeutral,
    towns := fun _ => ∅,
    industries := fun i =>
      if i = 7 then
        { location := ⟨2, 1, 2, 1⟩, accepts_cargo := [some 0],
          neutral_station := some 1, stations_near := ∅ }
      else blankIndustry,
    stations := fun j =>
      if j = 1 then
        { blankStation with
            rect := rectOne,
            industry := some 7,
            train_station_tile := true }
      else blankStation }

/-- Settings for worldNeutral: neutral industries not served generally. -/
def settingsNeutral : StationSettings := ⟨12, true, 3, false⟩

/-- A two-node link graph: node 0 is station 1, node 1 is station 2, every
edge live. -/
def twoNodeGraph : LinkGraph :=
  { nodeStation := [1, 2], edgeLive := fun _ _ => true }

/-- The link-graph world of twoNodeGraph: graph 0 queued, station 2 holding
a live flow record keyed by and routed via station 1. -/
def twoNodeWorld : LinkGraphWorld :=
  { graphs := fun g => if g = 0 then some twoNodeGraph else none,
    queued := {0},
    flows := fun j => if j = 2 then {(1, 1)} else ∅,
    link_graph := fun j => if j = 1 ∨ j = 2 then some 0 else none,
    node := fun j => if j = 1 then 0 else if j = 2 then 1 else 0 }

/-! ### Theorems: StationRect spread handling -/

/-- C1 counterexample: on a non-empty rect with a tile whose inclusion
makes the width exceed the spread limit, BeforeAddTile in ADD_TRY mode
hits the assert(mode != ADD_TRY) abort instead of returning the structured
SpreadTooLarge failure, refuting the claim at this input. -/
theorem C1_cex_try_mode_asserts :
    (rectOne.BeforeAddTile 3 1 .ADD_TRY settingsSpread1).1 = .assertFailed ∧
    (rectOne.BeforeAddTile 3 1 .ADD_TRY settingsSpread1).1 ≠ .spreadTooLarge := by
  decide

/-- C1 amended: for every non-empty rect and tile lying outside it whose
inclusion would make the width or height exceed the configured spread,
BeforeAddTile in ADD_TRY mode aborts on the failed assert with the bounds
untouched at that point, while the same call in ADD_FORCE mode succeeds and
updates the rect to the minimal rect covering the old rect and the tile. -/
theorem C1_beforeAddTile_try_asserts_force_updates
    (r : StationRect) (x y : ℕ) (s : StationSettings)
    (hne : r.IsEmpty = false)
    (hout : r.PtInExtendedRect x y 0 = false)
    (hbig : max x r.right - min x r.left + 1 > s.station_spread ∨
      max y r.bottom - min y r.top + 1 > s.station_spread) :
    r.BeforeAddTile x y .ADD_TRY s = (.assertFailed, r) ∧
    r.BeforeAddTile x y .ADD_FORCE s =
      (.success, ⟨min x r.left, min y r.top, max x r.right, max y r.bottom⟩) := by
  unfold StationRect.BeforeAddTile
  simp only [hne, hout, Bool.false_eq_true, if_false, not_false_eq_true, if_true]
  constructor
  · rw [if_pos ⟨by simp, hbig⟩]
  · rw [if_neg (by simp)]
    simp

/-- C1 witness: the amended theorem applied to the concrete oversize
scenario. -/
theorem C1_witness :
    rectOne.BeforeAddTile 3 1 .ADD_TRY settingsSpread1 = (.assertFailed, rectOne) ∧
    rectOne.BeforeAddTile 3 1 .ADD_FORCE settingsSpread1 =
      (.success, ⟨min 3 rectOne.left, min 1 rectOne.top,
        max 3 rectOne.right, max 1 rectOne.bottom⟩) :=
  C1_beforeAddTile_try_asserts_force_updates rectOne 3 1 settingsSpread1
    (by decide) (by decide) (by decide)

/-- C2 counterexample: a 3 x 1 block exceeds the spread limit 1, yet
BeforeAddRect in ADD_TRY mode returns a success, not the SpreadTooLarge
failure, refuting the claim at this input (the rect is left unchanged). -/
theorem C2_cex_oversize_block_succeeds :
    rectOne.BeforeAddRect 1 1 3 1 .ADD_TRY settingsSpread1 = (.success, rectOne) ∧
    (rectOne.BeforeAddRect 1 1 3 1 .ADD_TRY settingsSpread1).1 ≠ .spreadTooLarge := by
  decide

/-- C2 amended: for every block whose width or height exceeds the
configured maximum spread, BeforeAddRect called without forced acceptance
returns a default success without testing the corners, leaving the rect
unchanged; no SpreadTooLarge failure is produced by BeforeAddRect itself. -/
theorem C2_beforeAddRect_oversize_succeeds_unchanged
    (r : StationRect) (x y w h : ℕ) (mode : StationRectMode) (s : StationSettings)
    (hmode : mode ≠ .ADD_FORCE)
    (hbig : w > s.station_spread ∨ h > s.station_spread) :
    r.BeforeAddRect x y w h mode s = (.success, r) := by
  unfold StationRect.BeforeAddRect
  rw [if_neg]
  rintro (hf | ⟨hw, hh⟩)
  · exact hmode hf
  · rcases hbig with hb | hb
    · exact absurd hw (not_le.mpr hb)
    · exact absurd hh (not_le.mpr hb)

/-- C2 witness: the amended theorem applied to the concrete oversize
block. -/
theorem C2_witness :
    rectOne.BeforeAddRect 1 1 3 1 .ADD_TRY settingsSpread1 = (.success, rectOne) :=
  C2_beforeAddRect_oversize_succeeds_unchanged rectOne 1 1 3 1 .ADD_TRY settingsSpread1
    (by decide) (by decide)

/-- C3 counterexample: committing a first tile with X coordinate 0 to an
empty rect succeeds and stores the single point, yet the resulting rect is
still classified empty because left == 0 is the empty sentinel, refuting
the claim for tiles whose X coordinate is 0. -/
theorem C3_cex_first_tile_x0_still_empty :
    (StationRect.MakeEmpty.BeforeAddTile 0 5 .ADD_TRY settingsFlat).1 = .success ∧
    (StationRect.MakeEmpty.BeforeAddTile 0 5 .ADD_TRY settingsFlat).2 =
      ⟨0, 5, 0, 5⟩ ∧
    (StationRect.MakeEmpty.BeforeAddTile 0 5 .ADD_TRY settingsFlat).2.IsEmpty = true := by
  decide

/-- C3 amended: committing a first tile to an empty rect always succeeds,
and the resulting rect is classified non-empty exactly when the X
coordinate of the tile is non-zero; a first tile on the x = 0 column leaves
the rect classified empty through the left == 0 sentinel, so the
empty-iff-no-tiles reading holds only away from that column. -/
theorem C3_first_tile_nonempty_iff_x_nonzero
    (x y : ℕ) (mode : StationRectMode) (s : StationSettings)
    (hmode : mode ≠ .ADD_TEST) :
    (StationRect.MakeEmpty.BeforeAddTile x y mode s).1 = .success ∧
    ((StationRect.MakeEmpty.BeforeAddTile x y mode s).2.IsEmpty = false ↔ x ≠ 0) := by
  unfold StationRect.BeforeAddTile
  rw [if_pos (by decide), if_pos hmode]
  refine ⟨rfl, ?_⟩
  simp [StationRect.IsEmpty]

/-- C3 witness: the amended theorem applied to a first tile away from the
x = 0 column. -/
theorem C3_witness :
    (StationRect.MakeEmpty.BeforeAddTile 3 2 .ADD_TRY settingsFlat).1 = .success ∧
    ((StationRect.MakeEmpty.BeforeAddTile 3 2 .ADD_TRY settingsFlat).2.IsEmpty = false ↔
      (3 : ℕ) ≠ 0) :=
  C3_first_tile_nonempty_iff_x_nonzero 3 2 .ADD_TRY settingsFlat (by decide)

/-! ### Characterisation lemmas for RecomputeCatchment -/

theorem worldAfterClear_map (w : World) (sid : StationID) (f : Bool) :
    (worldAfterClear w sid f).map = w.map := by
  cases f <;> rfl

theorem worldAfterClear_stations_sid (w : World) (sid : StationID) (f : Bool) :
    (worldAfterClear w sid f).stations sid =
      { w.stations sid with industries_near := ∅ } := by
  cases f <;> simp [worldAfterClear, RemoveFromAllNearbyLists]

theorem recompute_empty_eq (w : World) (s : StationSettings) (sid : StationID) (f : Bool)
    (h : (w.stations sid).rect.IsEmpty = true) :
    RecomputeCatchment s w sid f = recomputeEmptyBranch (worldAfterClear w sid f) sid := by
  unfold RecomputeCatchment
  rw [if_pos]
  rw [worldAfterClear_stations_sid]
  exact h

theorem recompute_neutral_eq (w : World) (s : StationSettings) (sid : StationID)
    (iid : IndustryID) (f : Bool)
    (hne : (w.stations sid).rect.IsEmpty = false)
    (hserve : s.serve_neutral_industries = false)
    (hind : (w.stations sid).industry = some iid) :
    RecomputeCatchment s w sid f =
      recomputeNeutralBranch (worldAfterClear w sid f) sid iid := by
  have h2 : ({ w.stations sid with industries_near := ∅ } : Station).industry = some iid :=
    hind
  have h3 : ({ w.stations sid with industries_near := ∅ } : Station).rect.IsEmpty = false :=
    hne
  simp only [RecomputeCatchment]
  rw [worldAfterClear_stations_sid, if_neg, hserve, h2]
  rw [h3]
  exact Bool.false_ne_true

theorem recompute_general_eq (w : World) (s : StationSettings) (sid : StationID) (f : Bool)
    (hne : (w.stations sid).rect.IsEmpty = false)
    (hgen : s.serve_neutral_industries = true ∨ (w.stations sid).industry = none) :
    RecomputeCatchment s w sid f =
      recomputeGeneralBranch (worldAfterClear w sid f) s sid := by
  have h3 : ({ w.stations sid with industries_near := ∅ } : Station).rect.IsEmpty = false :=
    hne
  simp only [RecomputeCatchment]
  rw [worldAfterClear_stations_sid, if_neg]
  · rcases hgen with hserve | hnone
    · rw [hserve]
    · have h2 : ({ w.stations sid with industries_near := ∅ } : Station).industry = none :=
        hnone
      cases hserve : s.serve_neutral_industries
      · rw [h2]
      · rfl
  · rw [h3]
    exact Bool.false_ne_true

theorem recompute_station_empty (w : World) (s : StationSettings) (sid : StationID)
    (f : Bool) (h : (w.stations sid).rect.IsEmpty = true) :
    (RecomputeCatchment s w sid f).stations sid =
      { w.stations sid with
          industries_near := ∅, catchment_tiles := BitmapTileArea.Reset } := by
  rw [recompute_empty_eq w s sid f h]
  show (recomputeEmptyBranch (worldAfterClear w sid f) sid).stations sid = _
  unfold recomputeEmptyBranch
  simp only [if_pos rfl]
  rw [worldAfterClear_stations_sid]
  simp

/-- C10: recomputing the catchment of a station whose bounding rect is
empty resets the bitmap and clears industries_near, leaving station_tiles
at its previous value rather than recounting it to zero. -/
theorem C10_empty_rect_keeps_station_tiles (w : World) (s : StationSettings)
    (sid : StationID) (f : Bool) (h : (w.stations sid).rect.IsEmpty = true) :
    ((RecomputeCatchment s w sid f).stations sid).station_tiles =
      (w.stations sid).station_tiles ∧
    ((RecomputeCatchment s w sid f).stations sid).catchment_tiles =
      BitmapTileArea.Reset ∧
    ((RecomputeCatchment s w sid f).stations sid).industries_near = ∅ := by
  rw [recompute_station_empty w s sid f h]
  exact ⟨rfl, rfl, rfl⟩

/-- C10 witness: a station holding a stale station_tiles count of 3 keeps
it across the empty-rect early return. -/
theorem C10_witness :
    (({ blankStation with station_tiles := 3 } : Station).rect.IsEmpty = true) ∧
    ((RecomputeCatchment settingsFlat
        { map := mapRailInd, towns := fun _ => ∅, industries := fun _ => blankIndustry,
          stations := fun _ => { blankStation with station_tiles := 3 } }
        1 false).stations 1).station_tiles = 3 :=
  ⟨by decide,
    (C10_empty_rect_keeps_station_tiles
      { map := mapRailInd, towns := fun _ => ∅, industries := fun _ => blankIndustry,
        stations := fun _ => { blankStation with station_tiles := 3 } }
      settingsFlat 1 false (by decide)).1⟩

theorem worldAfterClear_industries_location (w : World) (sid : StationID) (f : Bool)
    (i : IndustryID) :
    ((worldAfterClear w sid f).industries i).location = (w.industries i).location := by
  cases f <;> rfl

theorem worldAfterClear_industries_accepts (w : World) (sid : StationID) (f : Bool)
    (i : IndustryID) :
    ((worldAfterClear w sid f).industries i).accepts_cargo =
      (w.industries i).accepts_cargo := by
  cases f <;> rfl

theorem worldAfterClear_industries_neutral (w : World) (sid : StationID) (f : Bool)
    (i : IndustryID) :
    ((worldAfterClear w sid f).industries i).neutral_station =
      (w.industries i).neutral_station := by
  cases f <;> rfl

theorem recompute_station_neutral (w : World) (s : StationSettings) (sid : StationID)
    (iid : IndustryID) (f : Bool)
    (hne : (w.stations sid).rect.IsEmpty = false)
    (hserve : s.serve_neutral_industries = false)
    (hind : (w.stations sid).industry = some iid) :
    ((RecomputeCatchment s w sid f).stations sid).industries_near = {iid} ∧
    ((RecomputeCatchment s w sid f).stations sid).catchment_tiles.bits =
      ((worldAfterClear w sid f).industries iid).location.tiles.filter
        (fun t => (worldAfterClear w sid f).map.tileAt t = TileKind.industryTile iid) ∧
    ((RecomputeCatchment s w sid f).stations sid).catchment_tiles.area =
      ((worldAfterClear w sid f).industries iid).location.tiles ∧
    ((RecomputeCatchment s w sid f).stations sid).station_tiles =
      (stationTilesIn (worldAfterClear w sid f).map sid
        ((worldAfterClear w sid f).stations sid).rect).card ∧
    ((RecomputeCatchment s w sid f).stations sid).rect = (w.stations sid).rect ∧
    ((RecomputeCatchment s w sid f).stations sid).industry = (w.stations sid).industry := by
  rw [recompute_neutral_eq w s sid iid f hne hserve hind]
  simp only [recomputeNeutralBranch, if_true]
  by_cases hmem : sid ∈ ((worldAfterClear w sid f).industries iid).stations_near
  · simp only [if_pos hmem, worldAfterClear_stations_sid]
    simp [Finset.erase_empty]
  · simp only [if_neg hmem, worldAfterClear_stations_sid]
    simp

/-- C5: a station exclusively linked to one industry under the
serve-neutral-industries-off setting gets industries_near equal to exactly
that industry and a catchment bitmap equal to the industry footprint
intersected with the tiles still owned by the industry, for every choice of
the radius settings and with no geometric expansion. -/
theorem C5_neutral_linkage_catchment (w : World) (s : StationSettings) (sid : StationID)
    (iid : IndustryID) (f : Bool)
    (hserve : s.serve_neutral_industries = false)
    (hind : (w.stations sid).industry = some iid)
    (hne : (w.stations sid).rect.IsEmpty = false) :
    ((RecomputeCatchment s w sid f).stations sid).industries_near = {iid} ∧
    ((RecomputeCatchment s w sid f).stations sid).catchment_tiles.bits =
      (w.industries iid).location.tiles.filter
        (fun t => w.map.tileAt t = TileKind.industryTile iid) := by
  obtain ⟨h1, h2, -, -, -, -⟩ := recompute_station_neutral w s sid iid f hne hserve hind
  refine ⟨h1, ?_⟩
  rw [h2, worldAfterClear_industries_location, worldAfterClear_map]

/-- C5 witness: the neutral-case theorem applied to the concrete world in
which industry 7 owns tile (2, 1) while tile (3, 1) of its recorded
footprint is stale. -/
theorem C5_witness :
    ((RecomputeCatchment settingsNeutral worldNeutral 1 false).stations 1).industries_near =
      {7} ∧
    ((RecomputeCatchment settingsNeutral worldNeutral 1 false).stations 1).catchment_tiles.bits =
      (worldNeutral.industries 7).location.tiles.filter
        (fun t => worldNeutral.map.tileAt t = TileKind.industryTile 7) :=
  C5_neutral_linkage_catchment worldNeutral settingsNeutral 1 7 false (by decide)
    (by decide) (by decide)

theorem GetTileCatchmentRadius_congr (st st2 : Station) (s : StationSettings)
    (h : st.airport_catchment = st2.airport_catchment) (ty : StationType) :
    GetTileCatchmentRadius ty st s = GetTileCatchmentRadius ty st2 s := by
  unfold GetTileCatchmentRadius
  cases s.modified_catchment <;> cases ty <;> simp [h]

theorem generalCatchmentBits_congr (m : GameMap) (s : StationSettings)
    (st st2 : Station) (sid : StationID)
    (hrect : st.rect = st2.rect)
    (hair : st.airport_catchment = st2.airport_catchment) :
    generalCatchmentBits m s st sid = generalCatchmentBits m s st2 sid := by
  unfold generalCatchmentBits
  rw [hrect]
  refine Finset.biUnion_congr rfl ?_
  intro t _
  rw [GetTileCatchmentRadius_congr st st2 s hair]

theorem GetCatchmentRadius_congr (st st2 : Station) (s : StationSettings)
    (hbus : st.bus_stops = st2.bus_stops)
    (htruck : st.truck_stops = st2.truck_stops)
    (htrain : st.train_station_tile = st2.train_station_tile)
    (hship : st.ship_station_tile = st2.ship_station_tile)
    (hairt : st.airport_tile = st2.airport_tile)
    (hair : st.airport_catchment = st2.airport_catchment) :
    st.GetCatchmentRadius s = st2.GetCatchmentRadius s := by
  unfold Station.GetCatchmentRadius
  rw [hbus, htruck, htrain, hship, hairt, hair]

theorem GetCatchmentRect_congr (st st2 : Station) (s : StationSettings) (m : GameMap)
    (hrect : st.rect = st2.rect)
    (hbus : st.bus_stops = st2.bus_stops)
    (htruck : st.truck_stops = st2.truck_stops)
    (htrain : st.train_station_tile = st2.train_station_tile)
    (hship : st.ship_station_tile = st2.ship_station_tile)
    (hairt : st.airport_tile = st2.airport_tile)
    (hair : st.airport_catchment = st2.airport_catchment) :
    st.GetCatchmentRect s m = st2.GetCatchmentRect s m := by
  unfold Station.GetCatchmentRect Station.GetCatchmentRectUsingRadius
  rw [hrect, GetCatchmentRadius_congr st st2 s hbus htruck htrain hship hairt hair]

theorem generalIndustriesNear_congr (m : GameMap) (s : StationSettings)
    (inds inds2 : IndustryID → Industry) (bits : Finset Tile)
    (h : ∀ i, (inds i).neutral_station = (inds2 i).neutral_station ∧
      (inds i).accepts_cargo = (inds2 i).accepts_cargo) :
    generalIndustriesNear m s inds bits = generalIndustriesNear m s inds2 bits := by
  unfold generalIndustriesNear
  refine Finset.biUnion_congr rfl ?_
  intro t _
  cases htk : m.tileAt t <;> simp only []
  case industryTile i =>
    simp only [industryAllowed, acceptsAnyCargo, (h i).1, (h i).2]

theorem recompute_station_general (w : World) (s : StationSettings) (sid : StationID)
    (f : Bool)
    (hne : (w.stations sid).rect.IsEmpty = false)
    (hgen : s.serve_neutral_industries = true ∨ (w.stations sid).industry = none) :
    ((RecomputeCatchment s w sid f).stations sid).catchment_tiles.bits =
      generalCatchmentBits w.map s (w.stations sid) sid ∧
    ((RecomputeCatchment s w sid f).stations sid).catchment_tiles.area =
      rectTileSet ((w.stations sid).GetCatchmentRect s w.map) ∧
    ((RecomputeCatchment s w sid f).stations sid).industries_near =
      generalIndustriesNear w.map s w.industries
        (generalCatchmentBits w.map s (w.stations sid) sid) ∧
    ((RecomputeCatchment s w sid f).stations sid).station_tiles =
      (stationTilesIn w.map sid (w.stations sid).rect).card ∧
    ((RecomputeCatchment s w sid f).stations sid).rect = (w.stations sid).rect ∧
    ((RecomputeCatchment s w sid f).stations sid).industry = (w.stations sid).industry := by
  rw [recompute_general_eq w s sid f hne hgen]
  simp only [recomputeGeneralBranch, if_true]
  rw [worldAfterClear_stations_sid, worldAfterClear_map]
  have hbits : generalCatchmentBits w.map s
      { w.stations sid with industries_near := ∅ } sid =
      generalCatchmentBits w.map s (w.stations sid) sid :=
    generalCatchmentBits_congr w.map s _ _ sid rfl rfl
  refine ⟨hbits, ?_, ?_, rfl, rfl, rfl⟩
  · rw [GetCatchmentRect_congr ({ w.stations sid with industries_near := ∅ })
      (w.stations sid) s w.map rfl rfl rfl rfl rfl rfl rfl]
  · rw [hbits, generalIndustriesNear_congr w.map s
      (worldAfterClear w sid f).industries w.industries _ (fun i =>
        ⟨worldAfterClear_industries_neutral w sid f i,
          worldAfterClear_industries_accepts w sid f i⟩)]

theorem worldAfterClear_station_inputs (w : World) (sid : StationID) (f : Bool) :
    ((worldAfterClear w sid f).stations sid).rect = (w.stations sid).rect ∧
    ((worldAfterClear w sid f).stations sid).industry = (w.stations sid).industry ∧
    ((worldAfterClear w sid f).stations sid).bus_stops = (w.stations sid).bus_stops ∧
    ((worldAfterClear w sid f).stations sid).truck_stops = (w.stations sid).truck_stops ∧
    ((worldAfterClear w sid f).stations sid).train_station_tile =
      (w.stations sid).train_station_tile ∧
    ((worldAfterClear w sid f).stations sid).ship_station_tile =
      (w.stations sid).ship_station_tile ∧
    ((worldAfterClear w sid f).stations sid).airport_tile = (w.stations sid).airport_tile ∧
    ((worldAfterClear w sid f).stations sid).airport_catchment =
      (w.stations sid).airport_catchment := by
  rw [worldAfterClear_stations_sid]
  exact ⟨rfl, rfl, rfl, rfl, rfl, rfl, rfl, rfl⟩

theorem neutralBranch_station_inputs (w2 : World) (sid : StationID) (iid : IndustryID) :
    ((recomputeNeutralBranch w2 sid iid).stations sid).rect = (w2.stations sid).rect ∧
    ((recomputeNeutralBranch w2 sid iid).stations sid).industry =
      (w2.stations sid).industry ∧
    ((recomputeNeutralBranch w2 sid iid).stations sid).bus_stops =
      (w2.stations sid).bus_stops ∧
    ((recomputeNeutralBranch w2 sid iid).stations sid).truck_stops =
      (w2.stations sid).truck_stops ∧
    ((recomputeNeutralBranch w2 sid iid).stations sid).train_station_tile =
      (w2.stations sid).train_station_tile ∧
    ((recomputeNeutralBranch w2 sid iid).stations sid).ship_station_tile =
      (w2.stations sid).ship_station_tile ∧
    ((recomputeNeutralBranch w2 sid iid).stations sid).airport_tile =
      (w2.stations sid).airport_tile ∧
    ((recomputeNeutralBranch w2 sid iid).stations sid).airport_catchment =
      (w2.stations sid).airport_catchment := by
  simp only [recomputeNeutralBranch, if_true]
  by_cases hmem : sid ∈ (w2.industries iid).stations_near <;> simp [hmem]

theorem generalBranch_station_inputs (w2 : World) (s : StationSettings) (sid : StationID) :
    ((recomputeGeneralBranch w2 s sid).stations sid).rect = (w2.stations sid).rect ∧
    ((recomputeGeneralBranch w2 s sid).stations sid).industry =
      (w2.stations sid).industry ∧
    ((recomputeGeneralBranch w2 s sid).stations sid).bus_stops =
      (w2.stations sid).bus_stops ∧
    ((recomputeGeneralBranch w2 s sid).stations sid).truck_stops =
      (w2.stations sid).truck_stops ∧
    ((recomputeGeneralBranch w2 s sid).stations sid).train_station_tile =
      (w2.stations sid).train_station_tile ∧
    ((recomputeGeneralBranch w2 s sid).stations sid).ship_station_tile =
      (w2.stations sid).ship_station_tile ∧
    ((recomputeGeneralBranch w2 s sid).stations sid).airport_tile =
      (w2.stations sid).airport_tile ∧
    ((recomputeGeneralBranch w2 s sid).stations sid).airport_catchment =
      (w2.stations sid).airport_catchment := by
  simp [recomputeGeneralBranch]

theorem recompute_station_inputs (w : World) (s : StationSettings) (sid : StationID)
    (f : Bool) :
    ((RecomputeCatchment s w sid f).stations sid).rect = (w.stations sid).rect ∧
    ((RecomputeCatchment s w sid f).stations sid).industry = (w.stations sid).industry ∧
    ((RecomputeCatchment s w sid f).stations sid).bus_stops =
      (w.stations sid).bus_stops ∧
    ((RecomputeCatchment s w sid f).stations sid).truck_stops =
      (w.stations sid).truck_stops ∧
    ((RecomputeCatchment s w sid f).stations sid).train_station_tile =
      (w.stations sid).train_station_tile ∧
    ((RecomputeCatchment s w sid f).stations sid).ship_station_tile =
      (w.stations sid).ship_station_tile ∧
    ((RecomputeCatchment s w sid f).stations sid).airport_tile =
      (w.stations sid).airport_tile ∧
    ((RecomputeCatchment s w sid f).stations sid).airport_catchment =
      (w.stations sid).airport_catchment := by
  obtain ⟨c1, c2, c3, c4, c5, c6, c7, c8⟩ := worldAfterClear_station_inputs w sid f
  simp only [RecomputeCatchment]
  split
  · simp only [recomputeEmptyBranch, if_true]
    exact ⟨c1, c2, c3, c4, c5, c6, c7, c8⟩
  · split
    · obtain ⟨d1, d2, d3, d4, d5, d6, d7, d8⟩ :=
        neutralBranch_station_inputs (worldAfterClear w sid f) sid _
      exact ⟨d1.trans c1, d2.trans c2, d3.trans c3, d4.trans c4, d5.trans c5,
        d6.trans c6, d7.trans c7, d8.trans c8⟩
    · obtain ⟨d1, d2, d3, d4, d5, d6, d7, d8⟩ :=
        generalBranch_station_inputs (worldAfterClear w sid f) s sid
      exact ⟨d1.trans c1, d2.trans c2, d3.trans c3, d4.trans c4, d5.trans c5,
        d6.trans c6, d7.trans c7, d8.trans c8⟩

theorem neutralBranch_industries_info (w2 : World) (sid : StationID) (iid : IndustryID)
    (i : IndustryID) :
    ((recomputeNeutralBranch w2 sid iid).industries i).location =
      (w2.industries i).location ∧
    ((recomputeNeutralBranch w2 sid iid).industries i).accepts_cargo =
      (w2.industries i).accepts_cargo ∧
    ((recomputeNeutralBranch w2 sid iid).industries i).neutral_station =
      (w2.industries i).neutral_station := by
  simp only [recomputeNeutralBranch]
  by_cases hi : i = iid <;> simp [hi]

theorem generalBranch_industries_info (w2 : World) (s : StationSettings) (sid : StationID)
    (i : IndustryID) :
    ((recomputeGeneralBranch w2 s sid).industries i).location =
      (w2.industries i).location ∧
    ((recomputeGeneralBranch w2 s sid).industries i).accepts_cargo =
      (w2.industries i).accepts_cargo ∧
    ((recomputeGeneralBranch w2 s sid).industries i).neutral_station =
      (w2.industries i).neutral_station := by
  simp only [recomputeGeneralBranch]
  split <;> exact ⟨rfl, rfl, rfl⟩

theorem recompute_industries_info (w : World) (s : StationSettings) (sid : StationID)
    (f : Bool) (i : IndustryID) :
    ((RecomputeCatchment s w sid f).industries i).location = (w.industries i).location ∧
    ((RecomputeCatchment s w sid f).industries i).accepts_cargo =
      (w.industries i).accepts_cargo ∧
    ((RecomputeCatchment s w sid f).industries i).neutral_station =
      (w.industries i).neutral_station := by
  have c1 := worldAfterClear_industries_location w sid f i
  have c2 := worldAfterClear_industries_accepts w sid f i
  have c3 := worldAfterClear_industries_neutral w sid f i
  simp only [RecomputeCatchment]
  split
  · exact ⟨c1, c2, c3⟩
  · split
    · obtain ⟨d1, d2, d3⟩ := neutralBranch_industries_info (worldAfterClear w sid f) sid _ i
      exact ⟨d1.trans c1, d2.trans c2, d3.trans c3⟩
    · obtain ⟨d1, d2, d3⟩ :=
        generalBranch_industries_info (worldAfterClear w sid f) s sid i
      exact ⟨d1.trans c1, d2.trans c2, d3.trans c3⟩

theorem recompute_map (w : World) (s : StationSettings) (sid : StationID) (f : Bool) :
    (RecomputeCatchment s w sid f).map = w.map := by
  simp only [RecomputeCatchment]
  split
  · exact worldAfterClear_map w sid f
  · split
    · exact worldAfterClear_map w sid f
    · exact worldAfterClear_map w sid f

theorem BitmapTileArea_ext (a b : BitmapTileArea) (h1 : a.area = b.area)
    (h2 : a.bits = b.bits) : a = b := by
  cases a
  cases b
  cases h1
  cases h2
  rfl

theorem recompute_idem_general (w : World) (s : StationSettings) (sid : StationID)
    (f : Bool)
    (hne : (w.stations sid).rect.IsEmpty = false)
    (hgen : s.serve_neutral_industries = true ∨ (w.stations sid).industry = none) :
    ((RecomputeCatchment s (RecomputeCatchment s w sid f) sid f).stations sid).catchment_tiles =
      ((RecomputeCatchment s w sid f).stations sid).catchment_tiles ∧
    ((RecomputeCatchment s (RecomputeCatchment s w sid f) sid f).stations sid).industries_near =
      ((RecomputeCatchment s w sid f).stations sid).industries_near := by
  obtain ⟨hrect, hindus, hbus, htruck, htrain, hship, hairt, hair⟩ :=
    recompute_station_inputs w s sid f
  have hmap := recompute_map w s sid f
  have hne1 : ((RecomputeCatchment s w sid f).stations sid).rect.IsEmpty = false := by
    rw [hrect]; exact hne
  have hgen1 : s.serve_neutral_industries = true ∨
      ((RecomputeCatchment s w sid f).stations sid).industry = none := by
    refine hgen.imp id (fun h => ?_)
    rw [hindus]; exact h
  obtain ⟨g1a, g1b, g1c, g1d, g1e, g1f⟩ := recompute_station_general w s sid f hne hgen
  obtain ⟨g2a, g2b, g2c, g2d, g2e, g2f⟩ :=
    recompute_station_general (RecomputeCatchment s w sid f) s sid f hne1 hgen1
  have hbitseq : generalCatchmentBits (RecomputeCatchment s w sid f).map s
      ((RecomputeCatchment s w sid f).stations sid) sid =
      generalCatchmentBits w.map s (w.stations sid) sid := by
    rw [hmap]
    exact generalCatchmentBits_congr w.map s _ _ sid hrect hair
  constructor
  · refine BitmapTileArea_ext _ _ ?_ ?_
    · rw [g2b, g1b, hmap, GetCatchmentRect_congr
        ((RecomputeCatchment s w sid f).stations sid) (w.stations sid) s w.map
        hrect hbus htruck htrain hship hairt hair]
    · rw [g2a, g1a, hbitseq]
  · rw [g2c, g1c, hbitseq, hmap, generalIndustriesNear_congr w.map s
      (RecomputeCatchment s w sid f).industries w.industries _ (fun i =>
        ⟨(recompute_industries_info w s sid f i).2.2,
          (recompute_industries_info w s sid f i).2.1⟩)]

/-- C7: recomputing the catchment twice in a row with no intervening
change yields an identical catchment bitmap and an identical
industries_near set after the second call as after the first. -/
theorem C7_recompute_idempotent (w : World) (s : StationSettings) (sid : StationID)
    (f : Bool) :
    ((RecomputeCatchment s (RecomputeCatchment s w sid f) sid f).stations sid).catchment_tiles =
      ((RecomputeCatchment s w sid f).stations sid).catchment_tiles ∧
    ((RecomputeCatchment s (RecomputeCatchment s w sid f) sid f).stations sid).industries_near =
      ((RecomputeCatchment s w sid f).stations sid).industries_near := by
  obtain ⟨hrect, hindus, -, -, -, -, -, -⟩ := recompute_station_inputs w s sid f
  have hmap := recompute_map w s sid f
  by_cases hemp : (w.stations sid).rect.IsEmpty = true
  · have e1 := recompute_station_empty w s sid f hemp
    have hemp1 : ((RecomputeCatchment s w sid f).stations sid).rect.IsEmpty = true := by
      rw [hrect]; exact hemp
    have e2 := recompute_station_empty (RecomputeCatchment s w sid f) s sid f hemp1
    rw [e2, e1]
    exact ⟨rfl, rfl⟩
  · have hne : (w.stations sid).rect.IsEmpty = false := by
      rcases Bool.eq_false_or_eq_true ((w.stations sid).rect.IsEmpty) with h | h
      · exact absurd h hemp
      · exact h
    have hne1 : ((RecomputeCatchment s w sid f).stations sid).rect.IsEmpty = false := by
      rw [hrect]; exact hne
    cases hserve : s.serve_neutral_industries
    · cases hio : (w.stations sid).industry
      · exact recompute_idem_general w s sid f hne (Or.inr hio)
      · rename_i iid
        obtain ⟨n1a, n1b, n1c, n1d, n1e, n1f⟩ :=
          recompute_station_neutral w s sid iid f hne hserve hio
        have hio1 : ((RecomputeCatchment s w sid f).stations sid).industry = some iid := by
          rw [hindus]; exact hio
        obtain ⟨n2a, n2b, n2c, n2d, n2e, n2f⟩ :=
          recompute_station_neutral (RecomputeCatchment s w sid f) s sid iid f hne1
            hserve hio1
        refine ⟨BitmapTileArea_ext _ _ ?_ ?_, ?_⟩
        · rw [n2c, n1c, worldAfterClear_industries_location,
            worldAfterClear_industries_location,
            (recompute_industries_info w s sid f iid).1]
        · rw [n2b, n1b, worldAfterClear_industries_location,
            worldAfterClear_industries_location,
            (recompute_industries_info w s sid f iid).1,
            worldAfterClear_map, worldAfterClear_map, hmap]
        · rw [n2a, n1a]
    · exact recompute_idem_general w s sid f hne (Or.inl hserve)

theorem tileSquare_mono (m : GameMap) (t : Tile) (r1 r2 : ℕ) (h : r1 ≤ r2) :
    tileSquare m t r1 ⊆ tileSquare m t r2 := by
  unfold tileSquare
  refine Finset.product_subset_product ?_ ?_ <;> refine Finset.Icc_subset_Icc ?_ ?_
  · exact Nat.sub_le_sub_left h _
  · exact min_le_min le_rfl (Nat.add_le_add_left h _)
  · exact Nat.sub_le_sub_left h _
  · exact min_le_min le_rfl (Nat.add_le_add_left h _)

theorem GetTileCatchmentRadius_mono (ty : StationType) (st : Station)
    (s : StationSettings) (b1 b2 : ℕ) (hb : b1 ≤ b2)
    (h : GetTileCatchmentRadius ty st { s with catchment_increase := b1 } ≠ CA_NONE) :
    GetTileCatchmentRadius ty st { s with catchment_increase := b1 } ≤
      GetTileCatchmentRadius ty st { s with catchment_increase := b2 } ∧
    GetTileCatchmentRadius ty st { s with catchment_increase := b2 } ≠ CA_NONE := by
  unfold GetTileCatchmentRadius CA_NONE at h ⊢
  cases hm : s.modified_catchment <;> cases ty <;>
    simp [hm, CA_TRAIN, CA_UNMODIFIED, CA_TRUCK, CA_BUS, CA_DOCK] at h ⊢ <;>
    omega

theorem generalCatchmentBits_mono (m : GameMap) (st : Station) (sid : StationID)
    (s : StationSettings) (b1 b2 : ℕ) (hb : b1 ≤ b2) :
    generalCatchmentBits m { s with catchment_increase := b1 } st sid ⊆
      generalCatchmentBits m { s with catchment_increase := b2 } st sid := by
  intro tile hmem
  unfold generalCatchmentBits at hmem ⊢
  rw [Finset.mem_biUnion] at hmem ⊢
  obtain ⟨t, ht, hin⟩ := hmem
  refine ⟨t, ht, ?_⟩
  by_cases hz : GetTileCatchmentRadius (tileStationType m t) st
      { s with catchment_increase := b1 } = CA_NONE
  · rw [if_pos hz] at hin
    exact absurd hin (Finset.not_mem_empty tile)
  · obtain ⟨hle, hz2⟩ := GetTileCatchmentRadius_mono (tileStationType m t) st s b1 b2 hb hz
    rw [if_neg hz] at hin
    rw [if_neg hz2]
    exact tileSquare_mono m t _ _ hle hin

/-- C8: with all other world state and settings equal, raising the global
radius bonus never removes a tile from the catchment bitmap computed by
RecomputeCatchment. -/
theorem C8_catchment_monotone_in_bonus (w : World) (s : StationSettings) (sid : StationID)
    (f : Bool) (b1 b2 : ℕ) (hb : b1 ≤ b2) (tile : Tile)
    (hmem : tile ∈ ((RecomputeCatchment { s with catchment_increase := b1 } w sid
      f).stations sid).catchment_tiles.bits) :
    tile ∈ ((RecomputeCatchment { s with catchment_increase := b2 } w sid
      f).stations sid).catchment_tiles.bits := by
  by_cases hemp : (w.stations sid).rect.IsEmpty = true
  · rw [recompute_station_empty w { s with catchment_increase := b1 } sid f hemp] at hmem
    exact absurd hmem (Finset.not_mem_empty tile)
  · have hne : (w.stations sid).rect.IsEmpty = false := by
      rcases Bool.eq_false_or_eq_true ((w.stations sid).rect.IsEmpty) with h | h
      · exact absurd h hemp
      · exact h
    rcases Bool.eq_false_or_eq_true s.serve_neutral_industries with hserve | hserve
    · rw [(recompute_station_general w { s with catchment_increase := b1 } sid f hne
        (Or.inl hserve)).1] at hmem
      rw [(recompute_station_general w { s with catchment_increase := b2 } sid f hne
        (Or.inl hserve)).1]
      exact generalCatchmentBits_mono w.map (w.stations sid) sid s b1 b2 hb hmem
    · cases hio : (w.stations sid).industry
      · rw [(recompute_station_general w { s with catchment_increase := b1 } sid f hne
          (Or.inr hio)).1] at hmem
        rw [(recompute_station_general w { s with catchment_increase := b2 } sid f hne
          (Or.inr hio)).1]
        exact generalCatchmentBits_mono w.map (w.stations sid) sid s b1 b2 hb hmem
      · rename_i iid
        rw [(recompute_station_neutral w { s with catchment_increase := b1 } sid iid f hne
          hserve hio).2.1] at hmem
        rw [(recompute_station_neutral w { s with catchment_increase := b2 } sid iid f hne
          hserve hio).2.1]
        exact hmem

/-- C8 witness: the monotonicity theorem applied to the concrete rail
station world at bonus values 0 and 1. -/
theorem C8_witness :
    ((0, 0) : Tile) ∈ ((RecomputeCatchment
      { settingsFlat with catchment_increase := 1 } worldNoCargoInd 1
      false).stations 1).catchment_tiles.bits :=
  C8_catchment_monotone_in_bonus worldNoCargoInd settingsFlat 1 false 0 1 (by decide)
    (0, 0) (by decide)

theorem mem_generalIndustriesNear (m : GameMap) (s : StationSettings)
    (inds : IndustryID → Industry) (bits : Finset Tile) (i : IndustryID) :
    i ∈ generalIndustriesNear m s inds bits ↔
      coversIndustryTile m bits i ∧ industryAllowed s (inds i) ∧
        acceptsAnyCargo (inds i) = true := by
  unfold generalIndustriesNear coversIndustryTile
  rw [Finset.mem_biUnion]
  constructor
  · rintro ⟨t, ht, hmem⟩
    cases htk : m.tileAt t <;> rw [htk] at hmem
    case house => exact absurd hmem (Finset.not_mem_empty i)
    case industryTile j =>
      replace hmem : i ∈ if industryAllowed s (inds j) ∧ acceptsAnyCargo (inds j) = true
          then ({j} : Finset IndustryID) else ∅ := hmem
      by_cases hc : industryAllowed s (inds j) ∧ acceptsAnyCargo (inds j) = true
      · rw [if_pos hc] at hmem
        rw [Finset.mem_singleton] at hmem
        subst hmem
        exact ⟨⟨t, ht, htk⟩, hc.1, hc.2⟩
      · rw [if_neg hc] at hmem
        exact absurd hmem (Finset.not_mem_empty i)
    case stationTile => exact absurd hmem (Finset.not_mem_empty i)
    case clear => exact absurd hmem (Finset.not_mem_empty i)
  · rintro ⟨⟨t, ht, htk⟩, hal, hac⟩
    refine ⟨t, ht, ?_⟩
    rw [htk]
    show i ∈ if industryAllowed s (inds i) ∧ acceptsAnyCargo (inds i) = true
      then ({i} : Finset IndustryID) else ∅
    rw [if_pos ⟨hal, hac⟩]
    exact Finset.mem_singleton_self i

theorem recompute_industries_sn_empty (w : World) (s : StationSettings) (sid : StationID)
    (h : (w.stations sid).rect.IsEmpty = true) (i : IndustryID) :
    ((RecomputeCatchment s w sid false).industries i).stations_near =
      (w.industries i).stations_near.erase sid := by
  rw [recompute_empty_eq w s sid false h]
  rfl

theorem recompute_industries_sn_neutral (w : World) (s : StationSettings)
    (sid : StationID) (iid : IndustryID)
    (hne : (w.stations sid).rect.IsEmpty = false)
    (hserve : s.serve_neutral_industries = false)
    (hind : (w.stations sid).industry = some iid) (i : IndustryID) :
    ((RecomputeCatchment s w sid false).industries i).stations_near =
      if i = iid then {sid} else (w.industries i).stations_near.erase sid := by
  rw [recompute_neutral_eq w s sid iid false hne hserve hind]
  simp only [recomputeNeutralBranch]
  by_cases hi : i = iid
  · simp only [if_pos hi]
  · simp only [if_neg hi]
    rfl

theorem recompute_sid_mem_sn_general (w : World) (s : StationSettings) (sid : StationID)
    (hne : (w.stations sid).rect.IsEmpty = false)
    (hgen : s.serve_neutral_industries = true ∨ (w.stations sid).industry = none)
    (i : IndustryID) :
    (sid ∈ ((RecomputeCatchment s w sid false).industries i).stations_near ↔
      coversIndustryTile w.map (generalCatchmentBits w.map s (w.stations sid) sid) i ∧
        industryAllowed s (w.industries i)) := by
  have hbits : generalCatchmentBits (worldAfterClear w sid false).map s
      ((worldAfterClear w sid false).stations sid) sid =
      generalCatchmentBits w.map s (w.stations sid) sid := by
    rw [worldAfterClear_stations_sid, worldAfterClear_map]
    exact generalCatchmentBits_congr w.map s _ _ sid rfl rfl
  have hcond : (coversIndustryTile (worldAfterClear w sid false).map
      (generalCatchmentBits (worldAfterClear w sid false).map s
        ((worldAfterClear w sid false).stations sid) sid) i ∧
      industryAllowed s ((worldAfterClear w sid false).industries i)) ↔
      (coversIndustryTile w.map
        (generalCatchmentBits w.map s (w.stations sid) sid) i ∧
        industryAllowed s (w.industries i)) := by
    rw [hbits, worldAfterClear_map]
    unfold industryAllowed
    rw [worldAfterClear_industries_neutral]
  rw [recompute_general_eq w s sid false hne hgen]
  simp only [recomputeGeneralBranch]
  by_cases hc : coversIndustryTile w.map
      (generalCatchmentBits w.map s (w.stations sid) sid) i ∧
      industryAllowed s (w.industries i)
  · rw [if_pos (hcond.mpr hc)]
    refine iff_of_true ?_ hc
    show sid ∈ insert sid (((worldAfterClear w sid false).industries i).stations_near)
    exact Finset.mem_insert_self sid _
  · rw [if_neg (fun hx => hc (hcond.mp hx))]
    refine iff_of_false ?_ hc
    show sid ∉ ((w.industries i).stations_near.erase sid)
    exact Finset.not_mem_erase sid _

/-- C4 counterexample: after RecomputeCatchment, station 1 sits in the
stations-near set of industry 7, which accepts no cargo kind, while 7 is
absent from the industries_near set of station 1 — the relation is not
symmetric for an industry accepting no cargo kind. -/
theorem C4_cex_no_cargo_industry_asymmetric :
    1 ∈ ((RecomputeCatchment settingsFlat worldNoCargoInd 1 false).industries
      7).stations_near ∧
    7 ∉ ((RecomputeCatchment settingsFlat worldNoCargoInd 1 false).stations
      1).industries_near := by
  decide

/-- C4 amended: after a RecomputeCatchment call with full reverse-index
cleanup, the station-industry relation is symmetric for the recomputed
station and every industry that accepts at least one cargo kind; an
industry accepting no cargo may keep the station in its reverse set while
staying absent from industries_near. -/
theorem C4_symmetry_for_accepting_industries (w : World) (s : StationSettings)
    (sid : StationID) (i : IndustryID)
    (hacc : acceptsAnyCargo (w.industries i) = true) :
    (sid ∈ ((RecomputeCatchment s w sid false).industries i).stations_near ↔
      i ∈ ((RecomputeCatchment s w sid false).stations sid).industries_near) := by
  by_cases hemp : (w.stations sid).rect.IsEmpty = true
  · rw [recompute_industries_sn_empty w s sid hemp i,
      recompute_station_empty w s sid false hemp]
    simp [Finset.not_mem_erase]
  · have hne : (w.stations sid).rect.IsEmpty = false := by
      rcases Bool.eq_false_or_eq_true ((w.stations sid).rect.IsEmpty) with h | h
      · exact absurd h hemp
      · exact h
    rcases Bool.eq_false_or_eq_true s.serve_neutral_industries with hserve | hserve
    · rw [recompute_sid_mem_sn_general w s sid hne (Or.inl hserve) i,
        (recompute_station_general w s sid false hne (Or.inl hserve)).2.2.1,
        mem_generalIndustriesNear]
      simp [hacc]
    · cases hio : (w.stations sid).industry
      · rw [recompute_sid_mem_sn_general w s sid hne (Or.inr hio) i,
          (recompute_station_general w s sid false hne (Or.inr hio)).2.2.1,
          mem_generalIndustriesNear]
        simp [hacc]
      · rename_i iid
        rw [recompute_industries_sn_neutral w s sid iid hne hserve hio i,
          (recompute_station_neutral w s sid iid false hne hserve hio).1]
        by_cases hi : i = iid
        · simp [hi]
        · simp [hi, Finset.not_mem_erase]

/-- C4 witness: the amended symmetry applied to the neutral-industry world,
in which industry 7 accepts cargo kind 0. -/
theorem C4_witness :
    (1 ∈ ((RecomputeCatchment settingsNeutral worldNeutral 1 false).industries
      7).stations_near ↔
    7 ∈ ((RecomputeCatchment settingsNeutral worldNeutral 1 false).stations
      1).industries_near) :=
  C4_symmetry_for_accepting_industries worldNeutral settingsNeutral 1 7 (by decide)

/-- C9: the per-tile catchment radius lookup is a pure function of the
station type of the tile, the airport catchment specification and the
global settings: with modified catchment enabled it returns the
type-specific radius (airport radius from the spec) plus the configured
bonus, with it disabled one flat unmodified radius plus the bonus for
every functional tile, and zero for buoy and waypoint tiles either way. -/
theorem C9_tile_radius_lookup (st st2 : Station) (s : StationSettings) :
    (∀ ty, st.airport_catchment = st2.airport_catchment →
      GetTileCatchmentRadius ty st s = GetTileCatchmentRadius ty st2 s) ∧
    (GetTileCatchmentRadius .STATION_BUOY st s = 0 ∧
      GetTileCatchmentRadius .STATION_WAYPOINT st s = 0) ∧
    (s.modified_catchment = true →
      GetTileCatchmentRadius .STATION_RAIL st s = CA_TRAIN + s.catchment_increase ∧
      GetTileCatchmentRadius .STATION_OILRIG st s = CA_UNMODIFIED + s.catchment_increase ∧
      GetTileCatchmentRadius .STATION_AIRPORT st s =
        st.airport_catchment + s.catchment_increase ∧
      GetTileCatchmentRadius .STATION_TRUCK st s = CA_TRUCK + s.catchment_increase ∧
      GetTileCatchmentRadius .STATION_BUS st s = CA_BUS + s.catchment_increase ∧
      GetTileCatchmentRadius .STATION_DOCK st s = CA_DOCK + s.catchment_increase) ∧
    (s.modified_catchment = false → ∀ ty, ty ≠ .STATION_BUOY → ty ≠ .STATION_WAYPOINT →
      GetTileCatchmentRadius ty st s = CA_UNMODIFIED + s.catchment_increase) := by
  refine ⟨fun ty h => GetTileCatchmentRadius_congr st st2 s h ty, ?_, ?_, ?_⟩
  · unfold GetTileCatchmentRadius
    cases hm : s.modified_catchment <;> simp [hm, CA_NONE]
  · intro hm
    unfold GetTileCatchmentRadius
    simp [hm]
  · intro hm ty h1 h2
    unfold GetTileCatchmentRadius
    cases ty <;>
      first
        | exact absurd rfl h1
        | exact absurd rfl h2
        | simp [hm]

/-- C9 witness: the lookup theorem applied at an airport spec radius of 2
under modified catchment with bonus 3, at a dock under flat catchment with
bonus 0, and at a buoy. -/
theorem C9_witness :
    GetTileCatchmentRadius .STATION_AIRPORT
      { blankStation with airport_catchment := 2 } settingsNeutral = 2 + 3 ∧
    GetTileCatchmentRadius .STATION_DOCK blankStation settingsFlat =
      CA_UNMODIFIED + 0 ∧
    GetTileCatchmentRadius .STATION_BUOY blankStation settingsNeutral = 0 :=
  ⟨((C9_tile_radius_lookup { blankStation with airport_catchment := 2 }
      blankStation settingsNeutral).2.2.1 rfl).2.2.1,
    (C9_tile_radius_lookup blankStation blankStation settingsFlat).2.2.2 rfl
      .STATION_DOCK (by decide) (by decide),
    (C9_tile_radius_lookup blankStation blankStation settingsNeutral).2.1.1⟩

/-- C6 counterexample: stations 1 (A) and 2 (B) hold the only two nodes of
graph 0 with a live flow record at B; destroying A scrubs the flow and
removes the node of A, yet the graph survives with the node of B and stays
queued — it is not retired, refuting the retirement part of the claim. -/
theorem C6_cex_two_node_graph_not_retired :
    (destructorUnlinkCargo twoNodeWorld 1).flows 2 = ∅ ∧
    ((destructorUnlinkCargo twoNodeWorld 1).graphs 0).isSome = true ∧
    (((destructorUnlinkCargo twoNodeWorld 1).graphs 0).map LinkGraph.nodeStation) =
      some [2] ∧
    0 ∈ (destructorUnlinkCargo twoNodeWorld 1).queued := by
  decide

/-- C6 amended: destroying station a scrubs from every station of the
graph, in particular from b with a live record, every flow entry keyed by
or routed via a, and removes the node of a; the graph is retired only when
it thereby becomes empty, so while the node of b remains — in particular
when a and b held the only two nodes — the graph survives, still queued. -/
theorem C6_teardown_flow_scrub (w : LinkGraphWorld) (a b : StationID)
    (gid : LinkGraphID) (lg : LinkGraph)
    (hlga : w.link_graph a = some gid)
    (hg : w.graphs gid = some lg)
    (nb : ℕ) (hnb : nb < lg.nodeStation.length)
    (hb : lg.nodeStation.get ⟨nb, hnb⟩ = b)
    (hlive : lg.edgeLive nb (w.node a) = true)
    (hna : w.node a < lg.nodeStation.length)
    (hab : nb ≠ w.node a) :
    (∀ p ∈ (destructorUnlinkCargo w a).flows b, p.1 ≠ a ∧ p.2 ≠ a) ∧
    ((destructorUnlinkCargo w a).graphs gid).map (fun g => g.nodeStation.length) =
      some (lg.nodeStation.length - 1) ∧
    ((destructorUnlinkCargo w a).graphs gid).isSome = true ∧
    (destructorUnlinkCargo w a).queued = w.queued := by
  have hlen : (lg.nodeStation.eraseIdx (w.node a)).length = lg.nodeStation.length - 1 := by
    rw [List.length_eraseIdx, if_pos hna]
  have h1 : nb < lg.nodeStation.length := hnb
  have h2 : w.node a < lg.nodeStation.length := hna
  have h3 : nb ≠ w.node a := hab
  have hbmem : b ∈ lg.nodeStation := hb ▸ lg.nodeStation.get_mem _ _
  have hge2 : 1 < lg.nodeStation.length := by
    rcases Nat.lt_or_ge 1 lg.nodeStation.length with h | h
    · exact h
    · have e1 : nb = 0 := Nat.lt_one_iff.mp (lt_of_lt_of_le hnb h)
      have e2 : w.node a = 0 := Nat.lt_one_iff.mp (lt_of_lt_of_le hna h)
      exact absurd (e1.trans e2.symm) hab
  have hne0 : ¬ ((lg.nodeStation.eraseIdx (w.node a)).length = 0) := by
    rw [hlen]
    exact Nat.sub_ne_zero_of_lt hge2
  have hflows : (destructorUnlinkCargo w a).flows b =
      flowsDeleteVia (flowsEraseSource (w.flows b) a) a := by
    simp only [destructorUnlinkCargo, hlga, hg]
    rw [if_neg hne0]
    dsimp only
    rw [if_pos hbmem,
      if_pos (⟨⟨nb, hnb⟩, hb, hlive⟩ : ∃ n : Fin lg.nodeStation.length,
        lg.nodeStation.get n = b ∧ lg.edgeLive n.val (w.node a) = true)]
  have hgraphs : (destructorUnlinkCargo w a).graphs gid =
      some { lg with nodeStation := lg.nodeStation.eraseIdx (w.node a) } := by
    simp only [destructorUnlinkCargo, hlga, hg]
    rw [if_neg hne0]
    dsimp only
    rw [if_pos rfl]
  have hqueued : (destructorUnlinkCargo w a).queued = w.queued := by
    simp only [destructorUnlinkCargo, hlga, hg]
    rw [if_neg hne0]
  refine ⟨?_, ?_, ?_, hqueued⟩
  · intro p hp
    rw [hflows] at hp
    unfold flowsDeleteVia flowsEraseSource at hp
    rw [Finset.mem_filter] at hp
    obtain ⟨hp1, hp2⟩ := hp
    rw [Finset.mem_filter] at hp1
    exact ⟨hp1.2, hp2⟩
  · rw [hgraphs]
    show some (lg.nodeStation.eraseIdx (w.node a)).length = _
    rw [hlen]
  · rw [hgraphs]
    rfl

/-- C6 witness: the amended teardown theorem applied to the concrete
two-node world. -/
theorem C6_witness :
    (∀ p ∈ (destructorUnlinkCargo twoNodeWorld 1).flows 2, p.1 ≠ 1 ∧ p.2 ≠ 1) ∧
    ((destructorUnlinkCargo twoNodeWorld 1).graphs 0).map
      (fun g => g.nodeStation.length) = some (twoNodeGraph.nodeStation.length - 1) ∧
    ((destructorUnlinkCargo twoNodeWorld 1).graphs 0).isSome = true ∧
    (destructorUnlinkCargo twoNodeWorld 1).queued = twoNodeWorld.queued :=
  C6_teardown_flow_scrub twoNodeWorld 1 2 0 twoNodeGraph rfl rfl 1 (by decide) rfl rfl
    (by decide) (by decide)

end StationCore
